import Mathlib

/-!
Verification development for the rtk-example repository.

The repository holds two source files: a README documenting Redux Toolkit
usage (whose code blocks include an example counter slice) and an ESLint
configuration file `.eslintrc.js`. This file embeds both machine-checkable
parts shallowly:

* `JsValue` models the JavaScript values that the configuration module can
  export (booleans, numbers, strings, arrays, objects, and function values,
  the latter so that function-freeness is a real statement), and `eslintrc`
  is the exact literal exported by `.eslintrc.js`.
* `CounterState`, `initialState` and the case reducers `increment`,
  `decrement`, `incrementByAmount` embed the example counter slice from the
  README (lines 133-160). The `value` field is typed `number` in the
  source, an IEEE-754 binary64 double; the embedding covers its
  integer-valued fragment exactly: IEEE addition and subtraction are
  correctly rounded, so on integer-valued doubles they compute the exact
  integer sum rounded to the nearest representable integer (`roundInt`,
  identity up to magnitude 2^53, round-to-nearest with ties to even
  above). `counterReducer` is the combined reducer over the generated
  actions, and `counterReducerE` models its evaluation in a JavaScript
  semantics with exceptions (none of the reducer bodies contains a
  throwing construct, so every branch returns normally).
-/

/-- A JavaScript value as exportable from a configuration module:
primitive data, arrays, objects, or function values. -/
inductive JsValue where
  | bool (b : Bool)
  | num (n : Int)
  | str (s : String)
  | list (xs : List JsValue)
  | obj (fields : List (String × JsValue))
  | func (name : String)

mutual

/-- Whether a JavaScript value contains a function value anywhere inside. -/
def JsValue.hasFunction : JsValue → Bool
  | .func _ => true
  | .list xs => hasFunctionList xs
  | .obj fs => hasFunctionObj fs
  | .bool _ => false
  | .num _ => false
  | .str _ => false

/-- Whether any value in a list contains a function value. -/
def hasFunctionList : List JsValue → Bool
  | [] => false
  | v :: vs => v.hasFunction || hasFunctionList vs

/-- Whether any field value of an object contains a function value. -/
def hasFunctionObj : List (String × JsValue) → Bool
  | [] => false
  | (_, v) :: fs => v.hasFunction || hasFunctionObj fs

end

/-- Lookup of a key among object fields, first match wins. -/
def lookupField : List (String × JsValue) → String → Option JsValue
  | [], _ => none
  | (k, v) :: fs, key => if k = key then some v else lookupField fs key

/-- Field access on a JavaScript value: defined on objects, `none` otherwise. -/
def JsValue.getField (v : JsValue) (key : String) : Option JsValue :=
  match v with
  | .obj fs => lookupField fs key
  | _ => none

/-- The constant record exported by `src/.eslintrc.js` (`module.exports`),
field by field in source order. -/
def eslintrc : JsValue :=
  .obj
    [ ("root", .bool true),
      ("env", .obj [("browser", .bool true), ("es2021", .bool true)]),
      ("extends", .list
        [ .str "react-app",
          .str "react-app/jest",
          .str "plugin:react/recommended",
          .str "eslint:recommended",
          .str "plugin:@typescript-eslint/eslint-recommended",
          .str "plugin:@typescript-eslint/recommended",
          .str "google",
          .str "prettier" ]),
      ("parser", .str "@typescript-eslint/parser"),
      ("parserOptions", .obj
        [ ("ecmaFeatures", .obj [("jsx", .bool true)]),
          ("ecmaVersion", .num 12),
          ("sourceType", .str "module") ]),
      ("plugins", .list [.str "react", .str "@typescript-eslint", .str "prettier"]),
      ("rules", .obj
        [ ("react/react-in-jsx-scope", .str "off"),
          ("require-jsdoc", .str "off"),
          ("no-console", .num 1),
          ("prettier/prettier", .num 2),
          ("linebreak-style", .str "off") ]) ]

/-- ESLint rule severity levels. -/
inductive Severity where
  | off
  | warn
  | error
deriving DecidableEq, Repr

/-- The ESLint severity denoted by a setting value: `"off"`/`0` disable a
rule, `"warn"`/`1` make it a warning, `"error"`/`2` make it an error
(the source comments on `no-console` and `prettier/prettier` state the
numeric meanings). -/
def severityOf : JsValue → Option Severity
  | .str "off" => some .off
  | .num 0 => some .off
  | .str "warn" => some .warn
  | .num 1 => some .warn
  | .str "error" => some .error
  | .num 2 => some .error
  | _ => none

/-- Whether a rule setting disables the rule. -/
def isOff (v : JsValue) : Bool :=
  match severityOf v with
  | some .off => true
  | _ => false

/-- Whether a rule setting escalates the rule to a warning. -/
def isWarn (v : JsValue) : Bool :=
  match severityOf v with
  | some .warn => true
  | _ => false

/-- Whether a rule setting escalates the rule to an error. -/
def isError (v : JsValue) : Bool :=
  match severityOf v with
  | some .error => true
  | _ => false

/-- The individual rule overrides of a configuration: the field list of its
`rules` object, empty when absent. -/
def ruleEntries (v : JsValue) : List (String × JsValue) :=
  match v.getField "rules" with
  | some (.obj fs) => fs
  | _ => []

/-- The unit in the last place of a binary64 double at a nonnegative
integer magnitude above 2^53: the exponent k with 2^(52+k) <= m < 2^(53+k)
(the 53-bit significand then resolves multiples of 2^k). The search bound
covers every magnitude the development touches; integers at or beyond
2^2053 are far past the binary64 overflow threshold and are never
produced by the claims. -/
def ulpOf (m : Nat) : Nat :=
  ((List.range' 1 2000).find? (fun k => m < 2 ^ 53 * 2 ^ k)).getD 2000

/-- Rounding of a nonnegative integer to the nearest integer representable
as a binary64 double: integers up to 2^53 are exactly representable;
above, round to the nearest multiple of the unit in the last place, with
ties to the even multiple (IEEE-754 roundTiesToEven). -/
def roundNat (m : Nat) : Nat :=
  if m ≤ 2 ^ 53 then m
  else
    let u := 2 ^ ulpOf m
    let q := m / u
    let r := m % u
    if 2 * r < u then q * u
    else if u < 2 * r then (q + 1) * u
    else if q % 2 = 0 then q * u else (q + 1) * u

/-- Rounding of an integer to the nearest binary64-representable integer;
binary64 rounding is symmetric in sign. -/
def roundInt (n : Int) : Int :=
  if 0 ≤ n then (roundNat n.natAbs : Int) else -((roundNat n.natAbs : Int))

/-- Addition as the source `+=` performs it on integer-valued doubles:
IEEE-754 binary64 addition is correctly rounded, so the result is the
exact integer sum rounded to the nearest representable integer. -/
def jsAdd (x y : Int) : Int := roundInt (x + y)

/-- Subtraction as the source `-=` performs it on integer-valued doubles:
correctly rounded exact difference. -/
def jsSub (x y : Int) : Int := roundInt (x - y)

/-- The state shape of the example counter slice (README lines 133-135):
a record with the single numeric field `value`, a `number` (binary64
double); the embedding carries its integer-valued fragment. -/
structure CounterState where
  value : Int
deriving DecidableEq, Repr

/-- The initial state of the counter slice (README lines 137-139). -/
def initialState : CounterState := ⟨0⟩

/-- The `increment` case reducer: `state.value += 1` under binary64
addition (README lines 145-147). -/
def increment (s : CounterState) : CounterState :=
  { s with value := jsAdd s.value 1 }

/-- The `decrement` case reducer: `state.value -= 1` under binary64
subtraction (README lines 148-150). -/
def decrement (s : CounterState) : CounterState :=
  { s with value := jsSub s.value 1 }

/-- The `incrementByAmount` case reducer: `state.value += action.payload`
under binary64 addition, for an integer-valued payload (the source payload
type `PayloadAction<number>` is a double; the embedding covers its
integer-valued fragment) (README lines 151-153). -/
def incrementByAmount (s : CounterState) (payload : Int) : CounterState :=
  { s with value := jsAdd s.value payload }

/-- The actions generated for the counter slice, one per case reducer. -/
inductive CounterAction where
  | increment
  | decrement
  | incrementByAmount (payload : Int)

/-- The combined reducer of the counter slice: dispatches each generated
action to its case reducer. -/
def counterReducer (s : CounterState) : CounterAction → CounterState
  | .increment => increment s
  | .decrement => decrement s
  | .incrementByAmount p => incrementByAmount s p

/-- Evaluation of the combined reducer in a JavaScript semantics with
exceptions: none of the three case reducer bodies contains a throwing
construct (each is a single numeric compound assignment), so every branch
returns a state normally. -/
def counterReducerE (s : CounterState) (a : CounterAction) :
    Except String CounterState :=
  match a with
  | .increment => .ok (increment s)
  | .decrement => .ok (decrement s)
  | .incrementByAmount p => .ok (incrementByAmount s p)

/-- Claim C3: the `extends` field of the configuration is exactly the
constant list of eight named rule sets, in source order. -/
theorem eslintrc_extends_exact :
    eslintrc.getField "extends" =
      some (.list
        [ .str "react-app",
          .str "react-app/jest",
          .str "plugin:react/recommended",
          .str "eslint:recommended",
          .str "plugin:@typescript-eslint/eslint-recommended",
          .str "plugin:@typescript-eslint/recommended",
          .str "google",
          .str "prettier" ]) := by
  rfl

/-- Claim C2, counterexample: the configuration disables three rules, not
exactly one as claimed. -/
theorem eslintrc_off_rules_not_one :
    ((ruleEntries eslintrc).filter (fun p => isOff p.2)).length = 3 ∧
    ((ruleEntries eslintrc).filter (fun p => isOff p.2)).length ≠ 1 := by
  constructor
  · rfl
  · decide

/-- Claim C2, amended: the rule overrides consist of disabling exactly
three rules and escalating exactly two other rules, one to error severity
and one to warning severity; no other individual rule overrides are
present (five entries in total). -/
theorem eslintrc_rule_overrides_counts :
    ((ruleEntries eslintrc).filter (fun p => isOff p.2)).length = 3 ∧
    ((ruleEntries eslintrc).filter (fun p => isError p.2)).length = 1 ∧
    ((ruleEntries eslintrc).filter (fun p => isWarn p.2)).length = 1 ∧
    (ruleEntries eslintrc).length = 5 := by
  refine ⟨rfl, rfl, rfl, rfl⟩

/-- Claim C5: the configuration module exports a single constant object
containing no function values, so evaluating it has no runtime behavior
beyond producing that record. -/
theorem eslintrc_constant_pure_object :
    eslintrc.hasFunction = false ∧ ∃ fs, eslintrc = JsValue.obj fs := by
  refine ⟨?_, _, rfl⟩
  simp [eslintrc, JsValue.hasFunction, hasFunctionList, hasFunctionObj]

/-- Claim C4: every case reducer of the counter slice is total and never
raises: on every state and every action (hence every payload), evaluation
with exceptions returns normally with the state the pure reducer computes. -/
theorem counterReducer_total_never_fails
    (s : CounterState) (a : CounterAction) :
    counterReducerE s a = Except.ok (counterReducer s a) := by
  cases a <;> rfl

/-- Claim C6: the counter state is a record fully determined by its single
numeric field `value`, and the initial state sets `value` to 0. -/
theorem counterState_single_field_initial_zero :
    initialState.value = 0 ∧ ∀ s : CounterState, s = ⟨s.value⟩ :=
  ⟨rfl, fun _ => rfl⟩

/-- Rounding to binary64 is the identity on every integer of magnitude at
most 2^53, since those are exactly representable. -/
theorem roundInt_eq_self (n : Int) (h : n.natAbs ≤ 2 ^ 53) :
    roundInt n = n := by
  unfold roundInt roundNat
  rw [if_pos h]
  split <;> omega

/-- Claim C7, counterexample: at value 2^53 the increment adds 1 but the
exact sum 2^53 + 1 is not representable and rounds back to 2^53 (tie to
even), so a subsequent decrement yields 2^53 - 1, not the original state. -/
theorem decrement_increment_counterexample :
    decrement (increment (⟨2 ^ 53⟩ : CounterState)) = ⟨2 ^ 53 - 1⟩ ∧
    decrement (increment (⟨2 ^ 53⟩ : CounterState)) ≠ ⟨2 ^ 53⟩ := by
  decide

/-- Claim C7, amended: for every counter state whose value has magnitude
strictly below 2^53 (the exactly-representable integer range of
binary64), applying `increment` and then `decrement` returns the
original state. -/
theorem decrement_increment_id_safe (s : CounterState)
    (h : s.value.natAbs < 2 ^ 53) :
    decrement (increment s) = s := by
  cases s with
  | mk v =>
    have hv : v.natAbs < 2 ^ 53 := h
    simp only [increment, decrement, jsAdd, jsSub]
    rw [roundInt_eq_self (v + 1) (by omega), Int.add_sub_cancel,
      roundInt_eq_self v (by omega)]

/-- Witness for the amended claim C7 at the concrete state 5. -/
theorem decrement_increment_id_safe_witness :
    (⟨5⟩ : CounterState).value.natAbs < 2 ^ 53 ∧
    decrement (increment (⟨5⟩ : CounterState)) = ⟨5⟩ :=
  ⟨by decide, decrement_increment_id_safe ⟨5⟩ (by decide)⟩

/-- Claim C8: `incrementByAmount` with payload 1 coincides with
`increment`. -/
theorem incrementByAmount_one_eq_increment (s : CounterState) :
    incrementByAmount s 1 = increment s := rfl

/-- Claim C9, counterexample: at value 2^53 with payloads 1 and 1, the
two successive increments each round 2^53 + 1 back to 2^53, while a
single increment by 1 + 1 = 2 lands on the representable 2^53 + 2; the
two results differ. -/
theorem incrementByAmount_additive_counterexample :
    incrementByAmount (incrementByAmount (⟨2 ^ 53⟩ : CounterState) 1) 1 =
      ⟨2 ^ 53⟩ ∧
    incrementByAmount (⟨2 ^ 53⟩ : CounterState) (1 + 1) = ⟨2 ^ 53 + 2⟩ ∧
    incrementByAmount (incrementByAmount (⟨2 ^ 53⟩ : CounterState) 1) 1 ≠
      incrementByAmount (⟨2 ^ 53⟩ : CounterState) (1 + 1) := by
  decide

/-- Claim C9, amended: whenever the intermediate sum `s.value + a` has
magnitude at most 2^53 (so the first addition is exact in binary64),
applying `incrementByAmount` with payload `a` and then `b` equals a
single application with payload `a + b`. -/
theorem incrementByAmount_additive_safe (s : CounterState) (a b : Int)
    (h : (s.value + a).natAbs ≤ 2 ^ 53) :
    incrementByAmount (incrementByAmount s a) b =
      incrementByAmount s (a + b) := by
  cases s with
  | mk v =>
    have hva : (v + a).natAbs ≤ 2 ^ 53 := h
    simp only [incrementByAmount, jsAdd]
    rw [roundInt_eq_self (v + a) hva, ← Int.add_assoc]

/-- Witness for the amended claim C9 at state 1 with payloads 2 and 3. -/
theorem incrementByAmount_additive_safe_witness :
    ((⟨1⟩ : CounterState).value + 2).natAbs ≤ 2 ^ 53 ∧
    incrementByAmount (incrementByAmount (⟨1⟩ : CounterState) 2) 3 =
      incrementByAmount (⟨1⟩ : CounterState) (2 + 3) :=
  ⟨by decide, incrementByAmount_additive_safe ⟨1⟩ 2 3 (by decide)⟩
